import Mathlib

/-!
Shallow embedding of the client-side core of the Support Escalation Agent
dashboard: the ticket data model, the demo-data generator and the metrics
aggregator of `TicketDashboard.tsx`, the trace fetch / synthesis and replay
logic of `DecisionTrace.tsx`, and the override submission path of
`TicketTable.tsx` and `TicketDashboard.tsx`.

Numbers are embedded as rationals, timestamps as integer epoch milliseconds.
-/

/-- Ticket lifecycle status (the `status` union type in the source). -/
inductive Status where
  | pending
  | auto_resolved
  | escalated
  | in_progress
deriving DecidableEq

/-- Ticket priority (the `priority` union type in the source). -/
inductive Priority where
  | low
  | medium
  | high
  | critical
deriving DecidableEq

/-- Ticket sentiment (the `sentiment` union type in the source). -/
inductive Sentiment where
  | positive
  | neutral
  | negative
deriving DecidableEq

/-- The string value of a priority, as it appears in the JSON data. -/
def Priority.str : Priority → String
  | .low => "low"
  | .medium => "medium"
  | .high => "high"
  | .critical => "critical"

/-- JavaScript `t.priority.toUpperCase()` on the priority string. -/
def Priority.upper : Priority → String
  | .low => "LOW"
  | .medium => "MEDIUM"
  | .high => "HIGH"
  | .critical => "CRITICAL"

/-- The string value of a sentiment, as it appears in the JSON data. -/
def Sentiment.str : Sentiment → String
  | .positive => "positive"
  | .neutral => "neutral"
  | .negative => "negative"

/-- The `Ticket` interface shared by `TicketDashboard.tsx`, `DecisionTrace.tsx`
and `TicketTable.tsx`.  `created_at` (an ISO string in the source) is embedded
as epoch milliseconds; `confidence` is optional so that the runtime
possibility of a missing confidence — which the aggregator defends against
with `t.confidence || 0` — is representable. -/
structure Ticket where
  id : String
  subject : String
  body : String
  status : Status
  priority : Priority
  category : String
  sentiment : Sentiment
  confidence : Option ℚ
  created_at : ℤ
  response : Option String
  escalation_reason : Option String
deriving DecidableEq

/-- The `DecisionStep` interface of `DecisionTrace.tsx`. -/
structure DecisionStep where
  step : String
  action : String
  reasoning : String
  confidence : Option ℚ
  timestamp : ℤ
deriving DecidableEq

/-- The `DashboardMetrics` interface of `TicketDashboard.tsx`. -/
structure DashboardMetrics where
  autoResolvedRate : ℤ
  avgConfidence : ℚ
  escalationRate : ℤ
  totalTickets : ℕ
  pendingCount : ℕ
deriving DecidableEq

/-- JavaScript `Math.round`: nearest integer, halves rounded toward
positive infinity. -/
def jsRound (q : ℚ) : ℤ := ⌊q + 1/2⌋

/-- JavaScript `a || b` for an optional string `a`: the default is used when
the value is absent or is the empty string (both falsy). -/
def jsOrElse (o : Option String) (d : String) : String :=
  match o with
  | some s => if s = "" then d else s
  | none => d

/-- `generateMockDecisions` in `DecisionTrace.tsx` (the trace synthesizer):
deterministically derives a fallback reasoning trace from a ticket.  `now`
stands for `Date.now()`. -/
def generateMockDecisions (now : ℤ) (t : Ticket) : List DecisionStep :=
  [ { step := "Input Validation"
      action := "validate"
      reasoning := "Verified ticket format, checked for malicious content, validated required fields. All security checks passed successfully."
      confidence := some 1
      timestamp := now - 3000 },
    { step := "Classification"
      action := "classify"
      reasoning := "Analyzed ticket content using NLP models. Determined priority level: " ++ t.priority.upper ++ ". Detected sentiment: " ++ t.sentiment.str ++ ". Category assigned: " ++ t.category ++ "."
      confidence := t.confidence
      timestamp := now - 2500 },
    { step := "Context Retrieval"
      action := "gather_context"
      reasoning := "Searched knowledge base for relevant documentation. Found 12 similar past tickets. Retrieved product documentation and FAQ entries."
      confidence := some (92/100)
      timestamp := now - 2000 },
    { step := "Decision Engine"
      action := if t.status = Status.escalated then "escalate" else "auto_respond"
      reasoning :=
        if t.status = Status.escalated then
          "Escalation triggered: " ++ jsOrElse t.escalation_reason "Confidence below threshold" ++ ". Human review required for optimal resolution."
        else
          "Confidence threshold met. Proceeding with automated response generation based on context and classification."
      confidence := t.confidence
      timestamp := now - 1500 } ]
  ++ (if t.status = Status.auto_resolved then
      [ { step := "Response Generation"
          action := "generate"
          reasoning := "Generated response using RAG pipeline. Incorporated context from knowledge base. Applied tone matching based on sentiment analysis."
          confidence := t.confidence
          timestamp := now - 1000 } ]
      else [])
  ++ [ { step := "Quality Assurance"
         action := if t.status = Status.auto_resolved then "approve" else "skip"
         reasoning :=
           if t.status = Status.auto_resolved then
             "Response validated against safety guidelines. Checked for accuracy, completeness, and appropriate tone. All checks passed."
           else
             "Quality check skipped - ticket routed to human agent for manual handling."
         confidence := if t.status = Status.auto_resolved then some (95/100) else some 0
         timestamp := now - 500 } ]

/-- The possible outcomes of the `fetch` in `fetchDecisionTrace`: a network
error (the `catch` branch), a non-2xx response (`response.ok` false), or a
2xx response whose parsed JSON carries the `decisions` field (`some`, possibly
the empty array) or lacks it (`none`, i.e. absent or `null`). -/
inductive TraceFetchResult where
  | netError
  | notOk
  | ok (decisions : Option (List DecisionStep))
deriving DecidableEq

/-- `fetchDecisionTrace` in `DecisionTrace.tsx`, as a function of the fetch
outcome.  On a 2xx response the source stores
`data.decisions || generateMockDecisions(ticket!)`; a JavaScript array —
including the empty array — is truthy, so the synthesized fallback is used
only when `decisions` is absent or null, on a non-2xx response, or on a
network error. -/
def fetchDecisionTrace (now : ℤ) (t : Ticket) (r : TraceFetchResult) : List DecisionStep :=
  match r with
  | .ok (some ds) => ds
  | .ok none => generateMockDecisions now t
  | .notOk => generateMockDecisions now t
  | .netError => generateMockDecisions now t

/-- The trace-relevant state of `DecisionTrace`: the currently selected
ticket (the `ticket` prop), the displayed `decisionSteps`, and the in-flight
trace fetches, each remembered with the ticket captured by its closure when
the effect fired. -/
structure TraceViewState where
  selected : Option Ticket
  decisionSteps : List DecisionStep
  pending : List Ticket
deriving DecidableEq

/-- Event-loop events for the trace view: the `useEffect` on `[ticket]`
(selecting a ticket starts a fetch; clearing it empties the steps), and the
completion of the `i`-th in-flight fetch with outcome `r`. -/
inductive TraceEvent where
  | select (t : Ticket)
  | deselect
  | complete (i : ℕ) (r : TraceFetchResult)

/-- One event-loop step of `DecisionTrace.tsx`.  A completion handler runs
`setDecisionSteps(...)` unconditionally — the source has no stale-response
guard comparing the fetched ticket id with the currently selected one. -/
def traceViewStep (now : ℤ) (s : TraceViewState) (e : TraceEvent) : TraceViewState :=
  match e with
  | .select t =>
      { s with selected := some t, pending := s.pending ++ [t] }
  | .deselect =>
      { s with selected := none, decisionSteps := [] }
  | .complete i r =>
      match s.pending[i]? with
      | none => s
      | some t =>
          { selected := s.selected
            decisionSteps := fetchDecisionTrace now t r
            pending := s.pending.eraseIdx i }

/-- Run a sequence of trace-view events from a starting state. -/
def traceViewRun (now : ℤ) (s₀ : TraceViewState) (es : List TraceEvent) : TraceViewState :=
  es.foldl (traceViewStep now) s₀

/-- The replay-relevant state of `DecisionTrace`: the displayed steps, the
presentation-only `expandedStep`, the `activeNode` pointer, the `isAnimating`
flag, the interval handle `animationRef.current` (`some` while an interval is
scheduled), and the `currentNode` counter captured by the interval
callback's closure. -/
structure PlayerState where
  decisionSteps : List DecisionStep
  expandedStep : Option ℕ
  activeNode : ℕ
  isAnimating : Bool
  timer : Option ℕ
  currentNode : ℕ
deriving DecidableEq

/-- `startReplayAnimation` in `DecisionTrace.tsx`: sets `isAnimating`,
resets the pointer and the closure counter, and schedules the interval. -/
def startReplayAnimation (s : PlayerState) : PlayerState :=
  { s with isAnimating := true, activeNode := 0, currentNode := 0, timer := some 0 }

/-- One firing of the 800 ms interval scheduled by `startReplayAnimation`:
increments `currentNode`; once it reaches `decisionSteps.length` the interval
clears itself and animation stops, otherwise the pointer advances.  When no
interval is scheduled nothing fires, so the state is unchanged. -/
def replayTick (s : PlayerState) : PlayerState :=
  match s.timer with
  | none => s
  | some _ =>
      let c := s.currentNode + 1
      if s.decisionSteps.length ≤ c then
        { s with currentNode := c, timer := none, isAnimating := false }
      else
        { s with currentNode := c, activeNode := c }

/-- `stopAnimation` in `DecisionTrace.tsx`: clears the interval if one is
scheduled (guarded, so it is safe with no interval), then clears
`isAnimating`. -/
def stopAnimation (s : PlayerState) : PlayerState :=
  match s.timer with
  | some _ => { s with timer := none, isAnimating := false }
  | none => { s with isAnimating := false }

/-- `generateDemoTickets` in `TicketDashboard.tsx`: the fixed six-ticket demo
collection substituted when the ticket API is unreachable.  `now` stands for
`Date.now()`. -/
def generateDemoTickets (now : ℤ) : List Ticket :=
  [ { id := "tkt-8f2a9c3d"
      subject := "Cannot access my account after password reset"
      body := "I reset my password yesterday but now I cannot log in..."
      status := Status.auto_resolved
      priority := Priority.high
      category := "Account Access"
      sentiment := Sentiment.negative
      confidence := some (89/100)
      created_at := now - 3600000
      response := some "I understand you\x27re having trouble accessing your account after the password reset. Please try clearing your browser cache and cookies, then attempt to log in again. If the issue persists, use the \"Forgot Password\" link to generate a new reset email."
      escalation_reason := none },
    { id := "tkt-4b7e1f8a"
      subject := "Billing discrepancy on latest invoice"
      body := "My invoice shows charges that I don\x27t recognize..."
      status := Status.escalated
      priority := Priority.critical
      category := "Billing"
      sentiment := Sentiment.negative
      confidence := some (45/100)
      created_at := now - 7200000
      response := none
      escalation_reason := some "Financial matter requires human verification" },
    { id := "tkt-9d3c5e2b"
      subject := "Feature request: Dark mode support"
      body := "Would love to see dark mode added to the dashboard..."
      status := Status.auto_resolved
      priority := Priority.low
      category := "Feature Request"
      sentiment := Sentiment.positive
      confidence := some (94/100)
      created_at := now - 10800000
      response := some "Thank you for your feature suggestion! We\x27ve added dark mode support to our product roadmap. You can track this feature request in our public changelog."
      escalation_reason := none },
    { id := "tkt-6a1d8c4f"
      subject := "API rate limiting issues"
      body := "Our integration is hitting rate limits unexpectedly..."
      status := Status.in_progress
      priority := Priority.high
      category := "Technical"
      sentiment := Sentiment.neutral
      confidence := some (72/100)
      created_at := now - 14400000
      response := none
      escalation_reason := none },
    { id := "tkt-2e9f7b5c"
      subject := "How to export data to CSV?"
      body := "I need to export all my data for a report..."
      status := Status.auto_resolved
      priority := Priority.medium
      category := "How-to"
      sentiment := Sentiment.neutral
      confidence := some (96/100)
      created_at := now - 18000000
      response := some "To export your data to CSV: 1) Go to Settings > Data Management, 2) Click \"Export Data\", 3) Select CSV format, 4) Choose the data range, 5) Click \"Generate Export\". The file will be emailed to you within 5 minutes."
      escalation_reason := none },
    { id := "tkt-7c4a2e8d"
      subject := "Integration with Salesforce not syncing"
      body := "Our Salesforce integration stopped syncing contacts..."
      status := Status.pending
      priority := Priority.high
      category := "Integration"
      sentiment := Sentiment.negative
      confidence := some (68/100)
      created_at := now - 21600000
      response := none
      escalation_reason := none } ]

/-- `calculateMetrics` in `TicketDashboard.tsx`, returning the metrics value
it stores with `setMetrics`. -/
def calculateMetrics (ticketData : List Ticket) : DashboardMetrics :=
  if ticketData.length = 0 then
    { autoResolvedRate := 0
      avgConfidence := 0
      escalationRate := 0
      totalTickets := 0
      pendingCount := 0 }
  else
    let total : ℕ := ticketData.length
    let autoResolved : ℕ := (ticketData.filter fun t => t.status = Status.auto_resolved).length
    let escalated : ℕ := (ticketData.filter fun t => t.status = Status.escalated).length
    let pending : ℕ := (ticketData.filter fun t => t.status = Status.pending).length
    let avgConf : ℚ := (ticketData.map fun t => t.confidence.getD 0).sum / total
    { autoResolvedRate := jsRound ((autoResolved / total : ℚ) * 100)
      avgConfidence := (jsRound (avgConf * 100) : ℚ) / 100
      escalationRate := jsRound ((escalated / total : ℚ) * 100)
      totalTickets := total
      pendingCount := pending }

/-- Modelled from the spec: `avgConfidence = mean(confidence over all
tickets)`, treating missing confidence as `0`; `0` if `totalTickets = 0`.
Spec-side definition of the exact arithmetic mean, used to compare the
aggregator's `avgConfidence` against the spec's wording. -/
def specMeanConfidence (ticketData : List Ticket) : ℚ :=
  if ticketData.length = 0 then 0
  else (ticketData.map fun t => t.confidence.getD 0).sum / ticketData.length

/-- The possible outcomes of the override `POST` in `handleOverride`: a
network error carrying the thrown error's message, a non-2xx response, or a
2xx response. -/
inductive PostResult where
  | netError (msg : String)
  | notOk
  | ok
deriving DecidableEq

/-- The `POST /api/tickets/:id/override` request body built by
`handleOverride` in `TicketDashboard.tsx`. -/
structure OverrideRequest where
  ticketId : String
  override_response : String
  reason : String
deriving DecidableEq

/-- The request `handleOverride` sends: the JSON body is
`(override_response: newResponse, reason: "Human override")`. -/
def overridePostRequest (ticketId newResponse : String) : OverrideRequest :=
  { ticketId := ticketId
    override_response := newResponse
    reason := "Human override" }

/-- The observable outcome of `handleOverride`: the request it issued,
whether `fetchTickets()` (the refresh) was reached, and the error recorded
with `setError`. -/
structure HandleOverrideResult where
  request : OverrideRequest
  refreshCalled : Bool
  errorSet : Option String
deriving DecidableEq

/-- `handleOverride` in `TicketDashboard.tsx` as a function of the post
outcome.  The `await fetchTickets()` sits inside the `try` block after the
`response.ok` check, so it runs only when the post succeeds; a non-2xx
response throws `Error("Failed to override ticket")` and a network error
propagates the thrown error, both landing in the `catch` which records the
message with `setError` and does not refresh. -/
def handleOverride (ticketId newResponse : String) (r : PostResult) : HandleOverrideResult :=
  match r with
  | .ok =>
      { request := overridePostRequest ticketId newResponse
        refreshCalled := true
        errorSet := none }
  | .notOk =>
      { request := overridePostRequest ticketId newResponse
        refreshCalled := false
        errorSet := some "Failed to override ticket" }
  | .netError msg =>
      { request := overridePostRequest ticketId newResponse
        refreshCalled := false
        errorSet := some msg }

/-- The `overrideModal` state of `TicketTable.tsx`. -/
structure OverrideModalState where
  isOpen : Bool
  ticketId : String
  currentResponse : String
deriving DecidableEq

/-- `handleOverrideSubmit` in `TicketTable.tsx`: calls
`onOverride(overrideModal.ticketId, newResponse)` with no validation of
`newResponse`, then closes the modal and clears the text box.  The first
component is the override request handed to the dashboard — `some` because
no code path rejects the text before the call. -/
def handleOverrideSubmit (modal : OverrideModalState) (newResponse : String) :
    Option OverrideRequest × OverrideModalState × String :=
  (some (overridePostRequest modal.ticketId newResponse),
   { isOpen := false, ticketId := "", currentResponse := "" },
   "")

/-- The second entry of the demo collection (`generateDemoTickets`) at
`Date.now() = 0`: an escalated billing ticket, used as a concrete input. -/
def billingTicket : Ticket :=
  { id := "tkt-4b7e1f8a"
    subject := "Billing discrepancy on latest invoice"
    body := "My invoice shows charges that I don\x27t recognize..."
    status := Status.escalated
    priority := Priority.critical
    category := "Billing"
    sentiment := Sentiment.negative
    confidence := some (45/100)
    created_at := -7200000
    response := none
    escalation_reason := some "Financial matter requires human verification" }

/-- The third entry of the demo collection (`generateDemoTickets`) at
`Date.now() = 0`: an auto-resolved feature-request ticket, used as a
concrete input. -/
def darkModeTicket : Ticket :=
  { id := "tkt-9d3c5e2b"
    subject := "Feature request: Dark mode support"
    body := "Would love to see dark mode added to the dashboard..."
    status := Status.auto_resolved
    priority := Priority.low
    category := "Feature Request"
    sentiment := Sentiment.positive
    confidence := some (94/100)
    created_at := -10800000
    response := some "Thank you for your feature suggestion! We\x27ve added dark mode support to our product roadmap. You can track this feature request in our public changelog."
    escalation_reason := none }

/-- C10: `stopAnimation` modifies only the timer handle and the animating
flag — the active-node pointer, the decision-step trace, the step-expansion
state (and the interval closure counter) are unchanged — it always leaves
the player not animating with no scheduled interval, and it is idempotent,
hence safe to call when no animation is running. -/
theorem stopAnimation_frame (s : PlayerState) :
    (stopAnimation s).decisionSteps = s.decisionSteps ∧
    (stopAnimation s).expandedStep = s.expandedStep ∧
    (stopAnimation s).activeNode = s.activeNode ∧
    (stopAnimation s).currentNode = s.currentNode ∧
    (stopAnimation s).isAnimating = false ∧
    (stopAnimation s).timer = none ∧
    stopAnimation (stopAnimation s) = stopAnimation s := by
  cases s with
  | mk ds es an ia tm cn => cases tm <;> simp [stopAnimation]

/-- C6: starting a replay on a 6-step trace and letting the interval fire to
completion leaves the player no longer animating, with the interval cleared
and the active-node pointer at the last index (5); once completed, any
number of further ticks leaves the state unchanged. -/
theorem replay_run_to_completion (s : PlayerState) (h : s.decisionSteps.length = 6) :
    (replayTick^[6] (startReplayAnimation s)).isAnimating = false ∧
    (replayTick^[6] (startReplayAnimation s)).timer = none ∧
    (replayTick^[6] (startReplayAnimation s)).activeNode = 5 ∧
    ∀ k : ℕ, replayTick^[k] (replayTick^[6] (startReplayAnimation s)) =
      replayTick^[6] (startReplayAnimation s) := by
  have key : replayTick^[6] (startReplayAnimation s) =
      { s with isAnimating := false, activeNode := 5, timer := none, currentNode := 6 } := by
    show replayTick (replayTick (replayTick (replayTick (replayTick (replayTick
      (startReplayAnimation s)))))) = _
    simp [startReplayAnimation, replayTick, h]
  have fix : replayTick { s with isAnimating := false, activeNode := 5, timer := none, currentNode := 6 } = { s with isAnimating := false, activeNode := 5, timer := none, currentNode := 6 } := rfl
  rw [key]
  exact ⟨rfl, rfl, rfl, fun k => Function.iterate_fixed fix k⟩

/-- C6 witness: running the replay to completion on the concrete 6-step
synthesized trace of the auto-resolved demo ticket. -/
theorem replay_run_to_completion_witness :
    (replayTick^[6] (startReplayAnimation
      ⟨generateMockDecisions 0 darkModeTicket, none, 0, false, none, 0⟩)).isAnimating = false ∧
    (replayTick^[6] (startReplayAnimation
      ⟨generateMockDecisions 0 darkModeTicket, none, 0, false, none, 0⟩)).timer = none ∧
    (replayTick^[6] (startReplayAnimation
      ⟨generateMockDecisions 0 darkModeTicket, none, 0, false, none, 0⟩)).activeNode = 5 ∧
    ∀ k : ℕ, (replayTick^[k] (replayTick^[6] (startReplayAnimation
      ⟨generateMockDecisions 0 darkModeTicket, none, 0, false, none, 0⟩))) =
      replayTick^[6] (startReplayAnimation
        ⟨generateMockDecisions 0 darkModeTicket, none, 0, false, none, 0⟩) :=
  replay_run_to_completion ⟨generateMockDecisions 0 darkModeTicket, none, 0, false, none, 0⟩ rfl

/-- C3 counterexample: on a non-2xx override post, `handleOverride` records
the error but does not reach the refresh — contradicting the claim that
`refresh()` is triggered unconditionally regardless of the post's outcome. -/
theorem override_failure_skips_refresh :
    (handleOverride "tkt-4b7e1f8a" "Corrected response" PostResult.notOk).refreshCalled = false ∧
    (handleOverride "tkt-4b7e1f8a" "Corrected response" PostResult.notOk).errorSet =
      some "Failed to override ticket" :=
  ⟨rfl, rfl⟩

/-- C3 (amended): `handleOverride` posts the correction and then triggers the
refresh exactly when the post succeeds; on a non-2xx response or a network
error it records the error for the caller and does not attempt the refresh. -/
theorem handleOverride_refresh_iff_ok (ticketId newResponse : String) (r : PostResult) :
    ((handleOverride ticketId newResponse r).refreshCalled = true ↔ r = PostResult.ok) ∧
    ((handleOverride ticketId newResponse r).errorSet = none ↔ r = PostResult.ok) ∧
    (handleOverride ticketId newResponse r).request =
      overridePostRequest ticketId newResponse := by
  cases r <;> simp [handleOverride]

/-- C4 counterexample: a whitespace-only override text is not rejected —
`handleOverrideSubmit` hands the override request, carrying the whitespace
text verbatim, to the network path. -/
theorem whitespace_override_sent :
    "   ".toList.all Char.isWhitespace = true ∧
    (handleOverrideSubmit ⟨true, "tkt-4b7e1f8a", ""⟩ "   ").1 =
      some { ticketId := "tkt-4b7e1f8a", override_response := "   ",
             reason := "Human override" } :=
  ⟨by decide, rfl⟩

/-- C4 (amended): the override submission path performs no validation: even
for text that is empty or whitespace-only after trimming, the override
request is issued with exactly that text and no validation error occurs. -/
theorem handleOverrideSubmit_no_validation (modal : OverrideModalState) (text : String)
    (_h : text.toList.all Char.isWhitespace = true) :
    (handleOverrideSubmit modal text).1 = some (overridePostRequest modal.ticketId text) :=
  rfl

/-- C4 witness: the amended claim at a concrete whitespace-only input. -/
theorem handleOverrideSubmit_no_validation_witness :
    (handleOverrideSubmit ⟨true, "tkt-7c4a2e8d", "prev"⟩ "  ").1 =
      some (overridePostRequest "tkt-7c4a2e8d" "  ") :=
  handleOverrideSubmit_no_validation ⟨true, "tkt-7c4a2e8d", "prev"⟩ "  " (by decide)

/-- C1 counterexample: a successful trace response whose `decisions` array is
empty is displayed as the empty trace, not replaced by the synthesized trace
(which is never empty) — a JavaScript array is truthy even when empty, so
`data.decisions || generateMockDecisions(ticket!)` keeps the empty array. -/
theorem empty_decisions_not_synthesized :
    fetchDecisionTrace 0 billingTicket (TraceFetchResult.ok (some [])) = [] ∧
    generateMockDecisions 0 billingTicket ≠ [] :=
  ⟨rfl, by simp [generateMockDecisions]⟩

/-- C1 (amended): `fetchDecisionTrace` falls back to the synthesized trace
exactly on a network failure, a non-2xx response, or a response whose
`decisions` field is absent or null; any present `decisions` array — the
empty array included — is displayed verbatim.  The synthesized fallback
itself is never empty. -/
theorem fetchDecisionTrace_fallback (now : ℤ) (t : Ticket) (ds : List DecisionStep) :
    fetchDecisionTrace now t TraceFetchResult.netError = generateMockDecisions now t ∧
    fetchDecisionTrace now t TraceFetchResult.notOk = generateMockDecisions now t ∧
    fetchDecisionTrace now t (TraceFetchResult.ok none) = generateMockDecisions now t ∧
    fetchDecisionTrace now t (TraceFetchResult.ok (some ds)) = ds ∧
    generateMockDecisions now t ≠ [] := by
  refine ⟨rfl, rfl, rfl, rfl, ?_⟩
  simp [generateMockDecisions]

/-- C2 counterexample: selecting the billing ticket, then the dark-mode
ticket, and letting the dark-mode fetch complete before the billing fetch
leaves the dashboard displaying the billing ticket's trace while the
dark-mode ticket is selected — the late response is applied, not discarded,
because the source has no stale-response guard. -/
theorem stale_trace_displayed :
    (traceViewRun 0 ⟨none, [], []⟩
      [TraceEvent.select billingTicket, TraceEvent.select darkModeTicket,
       TraceEvent.complete 1 TraceFetchResult.netError,
       TraceEvent.complete 0 TraceFetchResult.netError]).selected = some darkModeTicket ∧
    (traceViewRun 0 ⟨none, [], []⟩
      [TraceEvent.select billingTicket, TraceEvent.select darkModeTicket,
       TraceEvent.complete 1 TraceFetchResult.netError,
       TraceEvent.complete 0 TraceFetchResult.netError]).pending = [] ∧
    (traceViewRun 0 ⟨none, [], []⟩
      [TraceEvent.select billingTicket, TraceEvent.select darkModeTicket,
       TraceEvent.complete 1 TraceFetchResult.netError,
       TraceEvent.complete 0 TraceFetchResult.netError]).decisionSteps =
      generateMockDecisions 0 billingTicket ∧
    generateMockDecisions 0 billingTicket ≠ generateMockDecisions 0 darkModeTicket := by
  refine ⟨rfl, rfl, rfl, fun heq => ?_⟩
  have hlen := congrArg List.length heq
  simp [generateMockDecisions, billingTicket, darkModeTicket] at hlen

/-- C2 (amended): there is no stale-response guard: whenever an in-flight
trace fetch completes, its result — computed for the ticket captured when
that fetch started — replaces the displayed trace unconditionally, whatever
ticket is currently selected (last completion wins). -/
theorem traceView_last_completion_wins (now : ℤ) (s : TraceViewState) (i : ℕ)
    (r : TraceFetchResult) (t : Ticket) (h : s.pending[i]? = some t) :
    (traceViewStep now s (TraceEvent.complete i r)).decisionSteps =
      fetchDecisionTrace now t r ∧
    (traceViewStep now s (TraceEvent.complete i r)).selected = s.selected := by
  simp [traceViewStep, h]

/-- C2 witness: the amended claim at a concrete state in which the dark-mode
ticket is selected while the billing ticket's fetch is still pending. -/
theorem traceView_last_completion_wins_witness :
    (traceViewStep 0 ⟨some darkModeTicket, [], [billingTicket]⟩
      (TraceEvent.complete 0 TraceFetchResult.netError)).decisionSteps =
      fetchDecisionTrace 0 billingTicket TraceFetchResult.netError ∧
    (traceViewStep 0 ⟨some darkModeTicket, [], [billingTicket]⟩
      (TraceEvent.complete 0 TraceFetchResult.netError)).selected = some darkModeTicket :=
  traceView_last_completion_wins 0 ⟨some darkModeTicket, [], [billingTicket]⟩ 0
    TraceFetchResult.netError billingTicket rfl

/-- C5: the synthesized trace has its decision step (index 3) carrying
`escalate` — with reasoning containing the ticket's escalation reason, or
the default message when it is absent or empty — exactly when the ticket is
escalated, and `auto_respond` otherwise; a `generate` step is present
exactly for auto-resolved tickets (6 steps, else 5); and the final step is
`approve` with confidence 0.95 for auto-resolved tickets, else `skip` with
confidence 0. -/
theorem generateMockDecisions_shape (now : ℤ) (t : Ticket) :
    (generateMockDecisions now t).length =
      (if t.status = Status.auto_resolved then 6 else 5) ∧
    ((generateMockDecisions now t).get? 3).map DecisionStep.action =
      some (if t.status = Status.escalated then "escalate" else "auto_respond") ∧
    (t.status = Status.escalated →
      ∃ p q, ((generateMockDecisions now t).get? 3).map DecisionStep.reasoning =
        some (p ++ jsOrElse t.escalation_reason "Confidence below threshold" ++ q)) ∧
    ((generateMockDecisions now t).map DecisionStep.action).count "generate" =
      (if t.status = Status.auto_resolved then 1 else 0) ∧
    (generateMockDecisions now t).getLast?.map (fun d => (d.action, d.confidence)) =
      some (if t.status = Status.auto_resolved then ("approve", some (95/100 : ℚ))
            else ("skip", some (0 : ℚ))) := by
  obtain ⟨i, sub, b, st, pr, cat, sen, conf, cr, resp, er⟩ := t
  cases st <;>
    refine ⟨rfl, rfl, ?_, by simp [generateMockDecisions], rfl⟩
  · exact fun hst => by simp at hst
  · exact fun hst => by simp at hst
  · exact fun _ => ⟨"Escalation triggered: ",
      ". Human review required for optimal resolution.", rfl⟩
  · exact fun hst => by simp at hst

/-- C5 witness: the synthesizer's shape at the concrete escalated demo
ticket. -/
theorem generateMockDecisions_shape_witness :
    (generateMockDecisions 0 billingTicket).length =
      (if billingTicket.status = Status.auto_resolved then 6 else 5) ∧
    ((generateMockDecisions 0 billingTicket).get? 3).map DecisionStep.action =
      some (if billingTicket.status = Status.escalated then "escalate" else "auto_respond") ∧
    (billingTicket.status = Status.escalated →
      ∃ p q, ((generateMockDecisions 0 billingTicket).get? 3).map DecisionStep.reasoning =
        some (p ++ jsOrElse billingTicket.escalation_reason "Confidence below threshold" ++ q)) ∧
    ((generateMockDecisions 0 billingTicket).map DecisionStep.action).count "generate" =
      (if billingTicket.status = Status.auto_resolved then 1 else 0) ∧
    (generateMockDecisions 0 billingTicket).getLast?.map (fun d => (d.action, d.confidence)) =
      some (if billingTicket.status = Status.auto_resolved then ("approve", some (95/100 : ℚ))
            else ("skip", some (0 : ℚ))) :=
  generateMockDecisions_shape 0 billingTicket

/-- C7 counterexample: on the demo collection the exact arithmetic mean of
the confidences is 58/75 (≈ 0.7733), but `calculateMetrics` stores
`Math.round(avgConf * 100) / 100 = 0.77` — the aggregated `avgConfidence`
is the mean rounded to two decimals, not the mean itself. -/
theorem avgConfidence_not_exact_mean :
    specMeanConfidence (generateDemoTickets 0) = 58/75 ∧
    (calculateMetrics (generateDemoTickets 0)).avgConfidence = 77/100 ∧
    (77/100 : ℚ) ≠ 58/75 := by
  refine ⟨?_, ?_, by norm_num⟩
  · norm_num [specMeanConfidence, generateDemoTickets]
  · norm_num [calculateMetrics, generateDemoTickets, jsRound]

/-- C7 (amended): for every ticket collection, the aggregated
`avgConfidence` equals the arithmetic mean of the tickets' confidence values
(missing confidence treated as 0, mean 0 for the empty collection) rounded
to two decimal places with JavaScript `Math.round` at the percent scale. -/
theorem avgConfidence_is_rounded_mean (l : List Ticket) :
    (calculateMetrics l).avgConfidence =
      (jsRound (specMeanConfidence l * 100) : ℚ) / 100 := by
  rcases eq_or_ne l.length 0 with h | h
  · simp [calculateMetrics, specMeanConfidence, h, jsRound]
    norm_num
  · simp [calculateMetrics, specMeanConfidence, h]

/-- C8: the fixed demo collection has 3 auto-resolved, 1 escalated,
1 pending and 1 in-progress tickets, and aggregating it yields
`autoResolvedRate = 50`, `escalationRate = 17` (rounded from 100/6),
`pendingCount = 1` and `totalTickets = 6`, for any sampling time. -/
theorem demo_metrics (now : ℤ) :
    ((generateDemoTickets now).filter fun t => t.status = Status.auto_resolved).length = 3 ∧
    ((generateDemoTickets now).filter fun t => t.status = Status.escalated).length = 1 ∧
    ((generateDemoTickets now).filter fun t => t.status = Status.pending).length = 1 ∧
    ((generateDemoTickets now).filter fun t => t.status = Status.in_progress).length = 1 ∧
    (calculateMetrics (generateDemoTickets now)).autoResolvedRate = 50 ∧
    (calculateMetrics (generateDemoTickets now)).escalationRate = 17 ∧
    (calculateMetrics (generateDemoTickets now)).pendingCount = 1 ∧
    (calculateMetrics (generateDemoTickets now)).totalTickets = 6 := by
  have hlen : (generateDemoTickets now).length = 6 := rfl
  have ha : ((generateDemoTickets now).filter fun t => t.status = Status.auto_resolved).length = 3 := rfl
  have he : ((generateDemoTickets now).filter fun t => t.status = Status.escalated).length = 1 := rfl
  refine ⟨ha, he, rfl, rfl, ?_, ?_, rfl, rfl⟩
  · simp only [calculateMetrics, hlen, ha]
    norm_num [jsRound]
  · simp only [calculateMetrics, hlen, he]
    norm_num [jsRound]

/-- C9: the aggregator is order-independent — permuting the ticket
collection yields identical `DashboardMetrics` — and re-aggregating the
same collection yields the same result (it is a pure function of its
argument, with no retained state). -/
theorem calculateMetrics_perm (l l' : List Ticket) (h : l.Perm l') :
    calculateMetrics l = calculateMetrics l' ∧
    calculateMetrics l = calculateMetrics l := by
  refine ⟨?_, rfl⟩
  have hlen : l.length = l'.length := h.length_eq
  have h1 : (l.filter fun t => t.status = Status.auto_resolved).length =
      (l'.filter fun t => t.status = Status.auto_resolved).length :=
    (h.filter _).length_eq
  have h2 : (l.filter fun t => t.status = Status.escalated).length =
      (l'.filter fun t => t.status = Status.escalated).length :=
    (h.filter _).length_eq
  have h3 : (l.filter fun t => t.status = Status.pending).length =
      (l'.filter fun t => t.status = Status.pending).length :=
    (h.filter _).length_eq
  have h4 : (l.map fun t => t.confidence.getD 0).sum =
      (l'.map fun t => t.confidence.getD 0).sum :=
    (h.map _).sum_eq
  simp only [calculateMetrics, hlen, h1, h2, h3, h4]

/-- C9 witness: swapping two concrete tickets leaves the metrics unchanged. -/
theorem calculateMetrics_perm_witness :
    calculateMetrics [billingTicket, darkModeTicket] =
      calculateMetrics [darkModeTicket, billingTicket] ∧
    calculateMetrics [billingTicket, darkModeTicket] =
      calculateMetrics [billingTicket, darkModeTicket] :=
  calculateMetrics_perm [billingTicket, darkModeTicket] [darkModeTicket, billingTicket]
    (List.Perm.swap darkModeTicket billingTicket [])
